import Mathlib

/-!
Shallow embedding of the pricing / category / listing-format logic of
`ebay_art_analyzer.py` and the OAuth token lifecycle of
`ebay_api_integration.py`, with theorems checking the natural-language
specification against it.

Modelling conventions:
* Python strings are Lean `String`s; character-level work uses `String.data`
  (a `List Char`).  `str.lower()` is modelled with `Char.toLower`, which
  agrees with Python on the ASCII inputs all claims use.
* Python's `in` on strings (substring test) is `containsSub`.
* Prices are exact rationals (`ℚ`).  Python's `round(x, 2)` is modelled by
  `round2` (floor of `x*100 + 1/2`, divided by 100).  Python rounds floats
  half-to-even; the two modes differ only at exact half-cents, which no
  value appearing in the claims reaches, and the inequality claims have
  slack far larger than any rounding difference.
* The stateful token manager is embedded as pure state-passing functions:
  the current wall-clock time, the persisted token file and the outcome of
  the (single possible) HTTP exchange are explicit parameters, and each
  call returns its boolean result, the new in-memory state, the number of
  HTTP requests performed and the list of token-file writes performed.
-/

namespace EbayListing

/-- `listIsPrefixOf n h` : `n` is a prefix of `h` (Python `str.startswith`). -/
def listIsPrefixOf : List Char → List Char → Bool
  | [], _ => true
  | _ :: _, [] => false
  | a :: as, b :: bs => a == b && listIsPrefixOf as bs

/-- `containsSub n h` : `n` occurs as a contiguous substring of `h`
(Python `n in h` on strings). -/
def containsSub : List Char → List Char → Bool
  | n, [] => listIsPrefixOf n []
  | n, h@(_ :: t) => listIsPrefixOf n h || containsSub n t

/-- Python `s.lower()` (ASCII; all inputs in the claims are ASCII). -/
def lowerStr (s : List Char) : List Char := s.map Char.toLower

/-- `analysis.medium.lower().replace(' ', '_')` —
`ebay_art_analyzer.py` line 241. -/
def normalizeMedium (s : List Char) : List Char :=
  (lowerStr s).map (fun c => if c = ' ' then '_' else c)

/-- Exact-key lookup with default: Python `dict.get(key, default)` over an
association-list rendering of the literal dict. -/
def getD : List (List Char × ℚ) → List Char → ℚ → ℚ
  | [], _, d => d
  | (k, v) :: rest, key, d => if k = key then v else getD rest key d

/-- `medium_base_prices` table of `_load_pricing_database`
(`ebay_art_analyzer.py` lines 123–133), in dict insertion order. -/
def medium_base_prices : List (List Char × ℚ) :=
  [("oil_painting".data, 500), ("acrylic_painting".data, 350),
   ("watercolor".data, 250), ("print".data, 150), ("photograph".data, 200),
   ("drawing".data, 180), ("sculpture".data, 600), ("mixed_media".data, 400),
   ("digital".data, 100)]

/-- `size_multipliers` table (`ebay_art_analyzer.py` lines 108–114). -/
def size_multipliers : List (List Char × ℚ) :=
  [("miniature".data, 0.5), ("small".data, 0.8), ("medium".data, 1.0),
   ("large".data, 1.5), ("oversized".data, 2.0)]

/-- `condition_multipliers` table (`ebay_art_analyzer.py` lines 115–122). -/
def condition_multipliers : List (List Char × ℚ) :=
  [("mint".data, 1.2), ("excellent".data, 1.0), ("very_good".data, 0.8),
   ("good".data, 0.6), ("fair".data, 0.4), ("poor".data, 0.2)]

/-- `authenticity_multipliers` table (`ebay_art_analyzer.py` lines 134–139). -/
def authenticity_multipliers : List (List Char × ℚ) :=
  [("signed".data, 1.5), ("numbered".data, 1.3), ("certificate".data, 2.0),
   ("provenance".data, 2.5)]

/-- The base-price loop of `calculate_pricing`
(`ebay_art_analyzer.py` lines 242–247): `base_price = 250`, then the first
table key that is a substring of the normalized medium overrides it. -/
def lookupBasePrice : List (List Char × ℚ) → List Char → ℚ
  | [], _ => 250
  | (k, p) :: rest, m => if containsSub k m then p else lookupBasePrice rest m

/-- Base price for a medium string (`calculate_pricing` lines 240–247). -/
def base_price (medium : String) : ℚ :=
  lookupBasePrice medium_base_prices (normalizeMedium medium.data)

/-- Size multiplier (`calculate_pricing` lines 249–252):
`size_multipliers.get(analysis.size_category, 1.0)` (exact key, not lowered). -/
def size_mult (size_category : String) : ℚ :=
  getD size_multipliers size_category.data 1.0

/-- Condition multiplier (`calculate_pricing` lines 254–257):
`condition_multipliers.get(analysis.condition.lower(), 0.8)`. -/
def condition_mult (condition : String) : ℚ :=
  getD condition_multipliers (lowerStr condition.data) 0.8

/-- Whether some authenticity marker contains `"certificate"`
case-insensitively (`calculate_pricing` line 263). -/
def hasCertMarker (markers : List String) : Bool :=
  markers.any (fun m => containsSub "certificate".data (lowerStr m.data))

/-- Authenticity multiplier (`calculate_pricing` lines 259–264): starts at
1.0, `*= authenticity_multipliers['signed']` when a signature is present,
`*= 1.3` when some marker contains "certificate". -/
def auth_mult (signature_present : Bool) (markers : List String) : ℚ :=
  (if signature_present then getD authenticity_multipliers "signed".data 0
   else 1) *
  (if hasCertMarker markers then 1.3 else 1)

/-- The `ArtworkAnalysis` dataclass (`ebay_art_analyzer.py` lines 17–30). -/
structure ArtworkAnalysis where
  title : String
  artist : Option String
  medium : String
  style : String
  colors : List String
  subject_matter : String
  condition : String
  estimated_year : Option String
  size_category : String
  frame_info : String
  signature_present : Bool
  authenticity_markers : List String
deriving Repr, DecidableEq

/-- `estimated_value = base_price * size_mult * condition_mult * auth_mult`
(`calculate_pricing` line 267). -/
def estimated_value (a : ArtworkAnalysis) : ℚ :=
  base_price a.medium * size_mult a.size_category *
    condition_mult a.condition *
    auth_mult a.signature_present a.authenticity_markers

/-- Python `round(q, 2)` on the exact rationals this program produces. -/
def round2 (q : ℚ) : ℚ := (⌊q * 100 + 1 / 2⌋ : ℚ) / 100

/-- `calculate_pricing` (`ebay_art_analyzer.py` lines 238–280): returns
`(min_price, max_price, starting_bid, buy_now)`, each `round(·, 2)`. -/
def calculate_pricing (a : ArtworkAnalysis) : ℚ × ℚ × ℚ × ℚ :=
  (round2 (estimated_value a * 0.7), round2 (estimated_value a * 1.3),
   round2 (estimated_value a * 0.3), round2 (estimated_value a * 1.1))

/-- `determine_category` (`ebay_art_analyzer.py` lines 214–236): ordered
substring checks on the lowercased medium, first match wins. -/
def determine_category (medium : String) : Int × String :=
  let m := lowerStr medium.data
  if containsSub "oil".data m then
    (20125, "Art > Paintings > Oil Paintings")
  else if containsSub "acrylic".data m then
    (20126, "Art > Paintings > Acrylic Paintings")
  else if containsSub "watercolor".data m then
    (20127, "Art > Paintings > Watercolor Paintings")
  else if containsSub "print".data m || containsSub "lithograph".data m then
    (360010003, "Art > Prints > Lithographs")
  else if containsSub "photograph".data m then
    (360010011, "Art > Photographs > Contemporary")
  else if containsSub "drawing".data m || containsSub "pencil".data m then
    (20130, "Art > Drawings > Pencil Drawings")
  else if containsSub "sculpture".data m then
    (553, "Art > Sculptures > Contemporary")
  else if containsSub "digital".data m then
    (360010016, "Art > Digital Art > Digital Prints")
  else
    (20128, "Art > Paintings > Mixed Media")

/-- `_format_title` (`ebay_art_analyzer.py` lines 429–433): return the
title unchanged when its length is at most 80, else the first 77
characters followed by `"..."`. -/
def format_title (title : String) : String :=
  if title.data.length ≤ 80 then title
  else ⟨title.data.take 77 ++ "...".data⟩

/-- The placeholder image URL of `_get_image_urls`
(`ebay_api_integration.py` line 441). -/
def placeholder_image_url : String :=
  "https://via.placeholder.com/800x600/f0f0f0/333333?text=Artwork+Image"

/-- Per-photo formatting inside the loop of `_get_image_urls`
(`ebay_api_integration.py` lines 431–437): a photo starting with
`"http"` is kept, any other path gets the hosting-domain prefix. -/
def format_photo_url (photo : String) : String :=
  if listIsPrefixOf "http".data photo.data then photo
  else ⟨"https://your-domain.com".data ++ photo.data⟩

/-- `_get_image_urls` (`ebay_api_integration.py` lines 425–443): format the
first 12 photos; if that leaves no images, return the placeholder. -/
def get_image_urls (photos : List String) : List String :=
  let images := (photos.take 12).map format_photo_url
  if images.isEmpty then [placeholder_image_url] else images

/-! ## OAuth token lifecycle (`ebay_api_integration.py`)

The manager's mutable fields `access_token`, `refresh_token`,
`token_expires_at` become `TokenState`; `datetime`s are integer
timestamps.  Python truthiness on the optional string fields (`None` and
`""` both falsy) is `truthy`.  The token file, the wall clock and the
outcome of the only possible HTTP request are explicit parameters; each
operation returns its boolean result, the new state, how many HTTP
requests it performed and which token-file writes it performed.  The
`environment` tag written by `_save_tokens` is a constant of the
surrounding object and is omitted from `TokenFile`. -/

/-- In-memory token state (`ebay_api_integration.py` lines 54–56). -/
structure TokenState where
  accessToken : Option String
  refreshToken : Option String
  tokenExpiresAt : Option Int
deriving Repr, DecidableEq

/-- Parsed contents of `.ebay_tokens.json` (minus the constant
`environment` tag); `expires_at` is `none` when the stored value is null
or empty (falsy in `_load_tokens`). -/
structure TokenFile where
  access_token : Option String
  refresh_token : Option String
  expires_at : Option Int
deriving Repr, DecidableEq

/-- Outcome of the `requests.post` to the OAuth endpoint:
a response with its status and (for the fields the code reads) body, or a
raised network exception.  `accessToken = none` models a 200 body missing
the `access_token` key (`token_data['access_token']` then raises, caught
by the handler); `expiresIn = none` models a missing `expires_in`
(defaulted to 7200 via `.get`). -/
inductive HttpResult where
  | response (status : Nat) (accessToken : Option String)
      (expiresIn : Option Int)
  | exn
deriving Repr, DecidableEq

/-- Result of one manager call: the Python return value, the state of the
object afterwards, the number of HTTP requests issued, and the token-file
writes performed (in order). -/
structure CallResult where
  returnValue : Bool
  state : TokenState
  httpCalls : Nat
  savedFiles : List TokenFile
deriving Repr, DecidableEq

/-- Python truthiness of an optional string (`None` and `""` are falsy). -/
def truthy : Option String → Bool
  | none => false
  | some s => !(s == "")

/-- `_save_tokens` (`ebay_api_integration.py` lines 160–170): the file
contents written for a given state. -/
def tokenFileOf (st : TokenState) : TokenFile :=
  ⟨st.accessToken, st.refreshToken, st.tokenExpiresAt⟩

/-- `_load_tokens` (`ebay_api_integration.py` lines 172–189): with a
readable file, `access_token` and `refresh_token` are overwritten from it
(possibly with `None`), while `expires_at` is only overwritten when the
stored value is truthy; with no (readable) file the state is unchanged. -/
def load_tokens (st : TokenState) (file : Option TokenFile) : TokenState :=
  match file with
  | none => st
  | some f =>
      { accessToken := f.access_token
        refreshToken := f.refresh_token
        tokenExpiresAt :=
          match f.expires_at with
          | some e => some e
          | none => st.tokenExpiresAt }

/-- `refresh_access_token` (`ebay_api_integration.py` lines 122–158):
no refresh token → immediate `False` with no request; otherwise one POST.
On a 200 response with an `access_token`, the state is updated
(`expires_in` defaulting to 7200), saved once, and `True` returned; on a
non-200 status, a malformed 200 body, or a network exception the handler
returns `False` with the state untouched and nothing saved. -/
def refresh_access_token (st : TokenState) (now : Int) (resp : HttpResult) :
    CallResult :=
  if truthy st.refreshToken = false then ⟨false, st, 0, []⟩
  else
    match resp with
    | .response status atk ein =>
        if status = 200 then
          match atk with
          | some tok =>
              let expires_in := ein.getD 7200
              let st' : TokenState :=
                { st with accessToken := some tok
                          tokenExpiresAt := some (now + expires_in) }
              ⟨true, st', 1, [tokenFileOf st']⟩
          | none => ⟨false, st, 1, []⟩
        else ⟨false, st, 1, []⟩
    | .exn => ⟨false, st, 1, []⟩

/-- The lazy-load step at the top of `ensure_valid_token`
(`ebay_api_integration.py` lines 194–195): tokens are loaded from the
file only when no truthy in-memory access token exists. -/
def loadPhase (st : TokenState) (file : Option TokenFile) : TokenState :=
  if truthy st.accessToken = false then load_tokens st file else st

/-- `ensure_valid_token` (`ebay_api_integration.py` lines 191–204): after
the lazy load, an expiry timestamp that is set and not in the future
triggers a refresh when a refresh token is held (else `False`); in every
other case the truthiness of the access token is returned with no
request. -/
def ensure_valid_token (st : TokenState) (file : Option TokenFile)
    (now : Int) (resp : HttpResult) : CallResult :=
  match (loadPhase st file).tokenExpiresAt with
  | some exp =>
      if exp ≤ now then
        if truthy (loadPhase st file).refreshToken then
          refresh_access_token (loadPhase st file) now resp
        else ⟨false, loadPhase st file, 0, []⟩
      else ⟨truthy (loadPhase st file).accessToken, loadPhase st file, 0, []⟩
  | none => ⟨truthy (loadPhase st file).accessToken, loadPhase st file, 0, []⟩

/-! ## Theorems -/

/-- C1 (counterexample): the normalized medium `"oil_on_canvas"` contains
`"oil"`, yet its base price is the default 250, not 500 — the lookup tests
whether a full table key (here `"oil_painting"`) occurs in the medium, not
whether a fragment like `"oil"` does. -/
theorem base_price_oil_on_canvas_counterexample :
    containsSub "oil".data (normalizeMedium "Oil on canvas".data) = true ∧
    base_price "Oil on canvas" = 250 ∧ base_price "Oil on canvas" ≠ 500 := by
  refine ⟨by decide, by decide, by decide⟩

/-- C1 (amended): the base-price lookup checks each fixed-table key for
occurring as a substring of the normalized medium, first match in table
order winning: a medium containing `"oil_painting"` gets 500, a medium
containing `"print"` but none of the earlier keys gets 150, and a medium
containing no table key gets the default 250. -/
theorem base_price_substring_table (m : String) :
    (containsSub "oil_painting".data (normalizeMedium m.data) = true →
      base_price m = 500)
  ∧ (containsSub "print".data (normalizeMedium m.data) = true →
      containsSub "oil_painting".data (normalizeMedium m.data) = false →
      containsSub "acrylic_painting".data (normalizeMedium m.data) = false →
      containsSub "watercolor".data (normalizeMedium m.data) = false →
      base_price m = 150)
  ∧ ((∀ kp ∈ medium_base_prices,
        containsSub kp.1 (normalizeMedium m.data) = false) →
      base_price m = 250) := by
  refine ⟨fun h1 => ?_, fun h1 h2 h3 h4 => ?_, fun h => ?_⟩
  · simp [base_price, medium_base_prices, lookupBasePrice, h1]
  · simp [base_price, medium_base_prices, lookupBasePrice, h1, h2, h3, h4]
  · simp only [medium_base_prices, List.forall_mem_cons, List.not_mem_nil] at h
    obtain ⟨h1, h2, h3, h4, h5, h6, h7, h8, h9, -⟩ := h
    simp [base_price, medium_base_prices, lookupBasePrice,
      h1, h2, h3, h4, h5, h6, h7, h8, h9]

/-- Witness for the amended C1, at the three kinds of medium. -/
theorem base_price_substring_table_witness :
    base_price "Oil Painting" = 500 ∧ base_price "Screen Print" = 150 ∧
    base_price "Found Object" = 250 :=
  ⟨(base_price_substring_table "Oil Painting").1 (by decide),
   (base_price_substring_table "Screen Print").2.1
     (by decide) (by decide) (by decide) (by decide),
   (base_price_substring_table "Found Object").2.2 (by decide)⟩

/-- C7: the ordered substring checks of `determine_category` send
`"Oil on canvas"` to 20125, `"Gelatin silver photograph"` to 360010011,
the unrecognized `"Found Object Assemblage"` to the mixed-media fallback
20128, and (first match winning) a medium containing both `"oil"` and
`"print"` to the oil category. -/
theorem determine_category_examples :
    determine_category "Oil on canvas" =
      (20125, "Art > Paintings > Oil Paintings")
  ∧ determine_category "Gelatin silver photograph" =
      (360010011, "Art > Photographs > Contemporary")
  ∧ determine_category "Found Object Assemblage" =
      (20128, "Art > Paintings > Mixed Media")
  ∧ determine_category "Oil transfer print" =
      (20125, "Art > Paintings > Oil Paintings") := by
  refine ⟨by decide, by decide, by decide, by decide⟩

/-- C2: any analysis with medium "Screen Print", condition "Excellent",
size "medium", a signature and no authenticity markers has estimated
value 150 × 1.0 × 1.0 × 1.5 = 225 and pricing quadruple
(157.50, 292.50, 67.50, 247.50). -/
theorem calculate_pricing_screen_print (a : ArtworkAnalysis)
    (hm : a.medium = "Screen Print") (hc : a.condition = "Excellent")
    (hs : a.size_category = "medium") (hsig : a.signature_present = true)
    (hmk : a.authenticity_markers = []) :
    estimated_value a = 225 ∧
    calculate_pricing a = (157.5, 292.5, 67.5, 247.5) := by
  have hv : estimated_value a = 225 := by
    rw [estimated_value, hm, hc, hs, hsig, hmk]
    have h1 : base_price "Screen Print" = 150 := rfl
    have h2 : size_mult "medium" = (1.0 : ℚ) := rfl
    have h3 : condition_mult "Excellent" = (1.0 : ℚ) := rfl
    have h4 : auth_mult true [] =
        (1.5 : ℚ) * (if hasCertMarker [] then 1.3 else 1) := rfl
    rw [h1, h2, h3, h4]
    norm_num [hasCertMarker]
  refine ⟨hv, ?_⟩
  rw [calculate_pricing, hv]
  norm_num [round2]

/-- Witness for C2 at a concrete `ArtworkAnalysis`. -/
theorem calculate_pricing_screen_print_witness :
    estimated_value ⟨"Untitled", none, "Screen Print", "Pop Art", [],
      "Abstract", "Excellent", none, "medium", "Unframed", true, []⟩ = 225 ∧
    calculate_pricing ⟨"Untitled", none, "Screen Print", "Pop Art", [],
      "Abstract", "Excellent", none, "medium", "Unframed", true, []⟩ =
      (157.5, 292.5, 67.5, 247.5) :=
  calculate_pricing_screen_print _ rfl rfl rfl rfl rfl

/-- The base-price lookup always lands in the table's range [100, 600]. -/
theorem base_price_bounds (m : String) :
    100 ≤ base_price m ∧ base_price m ≤ 600 := by
  rw [base_price]
  generalize normalizeMedium m.data = n
  simp only [medium_base_prices, lookupBasePrice]
  split_ifs <;> norm_num

/-- The size multiplier always lands in [0.5, 2]. -/
theorem size_mult_bounds (s : String) :
    1 / 2 ≤ size_mult s ∧ size_mult s ≤ 2 := by
  rw [size_mult]
  simp only [size_multipliers, getD]
  split_ifs <;> norm_num

/-- The condition multiplier always lands in [0.2, 1.2]. -/
theorem condition_mult_bounds (c : String) :
    1 / 5 ≤ condition_mult c ∧ condition_mult c ≤ 6 / 5 := by
  rw [condition_mult]
  simp only [condition_multipliers, getD]
  split_ifs <;> norm_num

/-- The authenticity multiplier always lands in [1, 1.95]. -/
theorem auth_mult_bounds (sig : Bool) (markers : List String) :
    1 ≤ auth_mult sig markers ∧ auth_mult sig markers ≤ 39 / 20 := by
  have hs : getD authenticity_multipliers "signed".data 0 = (1.5 : ℚ) := rfl
  rw [auth_mult, hs]
  split_ifs <;> norm_num

/-- Rounding to cents preserves non-negativity. -/
theorem round2_nonneg {q : ℚ} (h : 0 ≤ q) : 0 ≤ round2 q := by
  rw [round2]
  have h2 : (0 : ℤ) ≤ ⌊q * 100 + 1 / 2⌋ := by
    apply Int.le_floor.mpr
    push_cast
    linarith
  have h3 : (0 : ℚ) ≤ (⌊q * 100 + 1 / 2⌋ : ℚ) := by exact_mod_cast h2
  linarith

/-- Rounding to cents raises a value by at most half a cent. -/
theorem round2_le (q : ℚ) : round2 q ≤ q + 1 / 200 := by
  rw [round2]
  have h2 : (⌊q * 100 + 1 / 2⌋ : ℚ) ≤ q * 100 + 1 / 2 := Int.floor_le _
  linarith

/-- Rounding to cents lowers a value by less than half a cent. -/
theorem lt_round2 (q : ℚ) : q - 1 / 200 < round2 q := by
  rw [round2]
  have h2 : q * 100 + 1 / 2 - 1 < (⌊q * 100 + 1 / 2⌋ : ℚ) :=
    Int.sub_one_lt_floor _
  linarith

/-- The estimated value is at least 100 × 0.5 × 0.2 × 1 = 10. -/
theorem estimated_value_ge_ten (a : ArtworkAnalysis) :
    10 ≤ estimated_value a := by
  obtain ⟨hb1, hb2⟩ := base_price_bounds a.medium
  obtain ⟨hs1, hs2⟩ := size_mult_bounds a.size_category
  obtain ⟨hc1, hc2⟩ := condition_mult_bounds a.condition
  obtain ⟨ha1, ha2⟩ :=
    auth_mult_bounds a.signature_present a.authenticity_markers
  rw [estimated_value]
  have p1 : (50 : ℚ) ≤ base_price a.medium * size_mult a.size_category := by
    nlinarith
  have p2 : (10 : ℚ) ≤ base_price a.medium * size_mult a.size_category *
      condition_mult a.condition := by nlinarith
  nlinarith

/-- C5: for every analysis — in particular for every medium, size and
condition drawn from (or absent from) the fixed tables and every
signature/marker combination — the four prices are non-negative and the
buy-it-now price (1.1 × value, rounded) strictly exceeds the starting bid
(0.3 × value, rounded). -/
theorem calculate_pricing_nonneg_buy_gt_bid (a : ArtworkAnalysis) :
    0 ≤ (calculate_pricing a).1 ∧ 0 ≤ (calculate_pricing a).2.1 ∧
    0 ≤ (calculate_pricing a).2.2.1 ∧ 0 ≤ (calculate_pricing a).2.2.2 ∧
    (calculate_pricing a).2.2.1 < (calculate_pricing a).2.2.2 := by
  have hv10 := estimated_value_ge_ten a
  have hv0 : (0 : ℚ) ≤ estimated_value a := by linarith
  have l1 := round2_le (estimated_value a * 0.3)
  have l2 := lt_round2 (estimated_value a * 1.1)
  simp only [calculate_pricing]
  refine ⟨round2_nonneg (by nlinarith), round2_nonneg (by nlinarith),
    round2_nonneg (by nlinarith), round2_nonneg (by nlinarith), ?_⟩
  have key : estimated_value a * 0.3 + 1 / 200 <
      estimated_value a * 1.1 - 1 / 200 := by nlinarith
  linarith

/-- C8: the authenticity multiplier compounds — ×1.95 with both a
signature and a "certificate" marker (case-insensitive substring), ×1.5
with only a signature, ×1.3 with only a certificate marker, ×1 with
neither — while the base price, size multiplier and condition multiplier
depend only on the medium, size category and condition. -/
theorem auth_multiplier_compounds (a : ArtworkAnalysis) :
    (a.signature_present = true → hasCertMarker a.authenticity_markers = true →
      estimated_value a = base_price a.medium * size_mult a.size_category *
        condition_mult a.condition * (39 / 20))
  ∧ (a.signature_present = true →
      hasCertMarker a.authenticity_markers = false →
      estimated_value a = base_price a.medium * size_mult a.size_category *
        condition_mult a.condition * (3 / 2))
  ∧ (a.signature_present = false →
      hasCertMarker a.authenticity_markers = true →
      estimated_value a = base_price a.medium * size_mult a.size_category *
        condition_mult a.condition * (13 / 10))
  ∧ (a.signature_present = false →
      hasCertMarker a.authenticity_markers = false →
      estimated_value a = base_price a.medium * size_mult a.size_category *
        condition_mult a.condition) := by
  have hs : getD authenticity_multipliers "signed".data 0 = (1.5 : ℚ) := rfl
  refine ⟨fun h1 h2 => ?_, fun h1 h2 => ?_, fun h1 h2 => ?_, fun h1 h2 => ?_⟩
  all_goals simp only [estimated_value, auth_mult, h1, h2, hs]
  all_goals norm_num

/-- Witness for C8: an analysis with a signature and a certificate marker
gets the compounded ×1.95 multiplier. -/
theorem auth_multiplier_compounds_witness :
    estimated_value ⟨"T", none, "Oil Painting", "S", [], "A", "Mint",
      none, "large", "F", true, ["Certificate of Authenticity included"]⟩ =
    base_price "Oil Painting" * size_mult "large" * condition_mult "Mint" *
      (39 / 20) :=
  (auth_multiplier_compounds ⟨"T", none, "Oil Painting", "S", [], "A", "Mint",
      none, "large", "F", true,
      ["Certificate of Authenticity included"]⟩).1 rfl (by decide)

/-- C6: a title longer than 80 characters is truncated to exactly 80
characters ending in `"..."`; a title of at most 80 characters is
returned unchanged. -/
theorem format_title_spec (t : String) :
    (80 < t.data.length →
      (format_title t).data.length = 80 ∧
      List.IsSuffix "...".data (format_title t).data)
  ∧ (t.data.length ≤ 80 → format_title t = t) := by
  constructor
  · intro h
    have hn : ¬ t.data.length ≤ 80 := by omega
    rw [format_title, if_neg hn]
    refine ⟨?_, ?_⟩
    · show (t.data.take 77 ++ "...".data).length = 80
      rw [List.length_append, List.length_take,
        min_eq_left (by omega : 77 ≤ t.data.length)]
      rfl
    · exact List.suffix_append _ _
  · intro h
    rw [format_title, if_pos h]

/-- Witness for C6: a 101-character title and a short title. -/
theorem format_title_spec_witness :
    ((format_title
        "A very long artwork title that keeps going and going well past the eighty character marketplace limit").data.length
        = 80 ∧
      List.IsSuffix "...".data (format_title
        "A very long artwork title that keeps going and going well past the eighty character marketplace limit").data)
  ∧ format_title "Sunset" = "Sunset" :=
  ⟨(format_title_spec _).1 (by decide),
   (format_title_spec "Sunset").2 (by decide)⟩

/-- C10: the image-URL extraction always returns between 1 and 12 URLs —
an empty photo list yields exactly the placeholder, a non-empty one
yields the first 12 photos run through the URL formatter. -/
theorem get_image_urls_spec (photos : List String) :
    1 ≤ (get_image_urls photos).length ∧ (get_image_urls photos).length ≤ 12
  ∧ (photos = [] → get_image_urls photos = [placeholder_image_url])
  ∧ (photos ≠ [] →
      get_image_urls photos = (photos.take 12).map format_photo_url) := by
  cases photos with
  | nil => exact ⟨by decide, by decide, fun _ => rfl, fun h => absurd rfl h⟩
  | cons p ps =>
      have hform : get_image_urls (p :: ps) =
          format_photo_url p :: (ps.take 11).map format_photo_url := rfl
      refine ⟨?_, ?_, fun h => absurd h (List.cons_ne_nil p ps), fun _ => rfl⟩
      · rw [hform, List.length_cons]
        omega
      · rw [hform]
        simp only [List.length_cons, List.length_map, List.length_take]
        omega

/-- Witness for C10: no photos and one local photo. -/
theorem get_image_urls_spec_witness :
    get_image_urls [] = [placeholder_image_url] ∧
    get_image_urls ["/img/a.jpg"] =
      (["/img/a.jpg"].take 12).map format_photo_url :=
  ⟨(get_image_urls_spec []).2.2.1 rfl,
   (get_image_urls_spec ["/img/a.jpg"]).2.2.2 (by decide)⟩

/-- With a truthy refresh token every call to `refresh_access_token`
issues exactly one HTTP request, whatever the exchange's outcome. -/
theorem refresh_access_token_calls (st : TokenState) (now : Int)
    (resp : HttpResult) (h : truthy st.refreshToken = true) :
    (refresh_access_token st now resp).httpCalls = 1 := by
  cases resp with
  | response s atk ein =>
      by_cases hs : s = 200
      · subst hs
        cases atk <;> simp [refresh_access_token, h]
      · simp [refresh_access_token, h, hs]
  | exn => simp [refresh_access_token, h]

/-- A non-200 refresh exchange returns `False`, leaves the state
untouched and saves nothing (one request was still made). -/
theorem refresh_access_token_non200 (st : TokenState) (now : Int) (s : Nat)
    (atk : Option String) (ein : Option Int) (hs : s ≠ 200)
    (h : truthy st.refreshToken = true) :
    refresh_access_token st now (.response s atk ein) =
      ⟨false, st, 1, []⟩ := by
  simp [refresh_access_token, h, hs]

/-- C3: after the lazy load, a call with the expiry strictly in the past
and a refresh token held performs exactly one HTTP request; a call with
the expiry in the future and an access token held performs zero HTTP
requests and returns `True`. -/
theorem ensure_valid_token_http_calls (st : TokenState)
    (file : Option TokenFile) (now e : Int) (resp : HttpResult) :
    ((loadPhase st file).tokenExpiresAt = some e → e < now →
      truthy (loadPhase st file).refreshToken = true →
      (ensure_valid_token st file now resp).httpCalls = 1)
  ∧ ((loadPhase st file).tokenExpiresAt = some e → now < e →
      truthy (loadPhase st file).accessToken = true →
      (ensure_valid_token st file now resp).httpCalls = 0 ∧
      (ensure_valid_token st file now resp).returnValue = true) := by
  constructor
  · intro h1 h2 h3
    simp only [ensure_valid_token, h1]
    rw [if_pos (le_of_lt h2), if_pos h3]
    exact refresh_access_token_calls _ _ _ h3
  · intro h1 h2 h3
    simp only [ensure_valid_token, h1]
    rw [if_neg (not_le.mpr h2)]
    exact ⟨rfl, h3⟩

/-- Witness for C3: an expired and an unexpired in-memory token. -/
theorem ensure_valid_token_http_calls_witness :
    (ensure_valid_token ⟨some "tok", some "ref", some 100⟩ none 200
        (.response 200 (some "new") none)).httpCalls = 1 ∧
    ((ensure_valid_token ⟨some "tok", some "ref", some 300⟩ none 200
        (.response 200 (some "new") none)).httpCalls = 0 ∧
     (ensure_valid_token ⟨some "tok", some "ref", some 300⟩ none 200
        (.response 200 (some "new") none)).returnValue = true) :=
  ⟨(ensure_valid_token_http_calls ⟨some "tok", some "ref", some 100⟩ none
      200 100 (.response 200 (some "new") none)).1 rfl (by decide) rfl,
   (ensure_valid_token_http_calls ⟨some "tok", some "ref", some 300⟩ none
      200 300 (.response 200 (some "new") none)).2 rfl (by decide) rfl⟩

/-- C4: when the refresh exchange answers with any non-200 status, the
expired-token call to `ensure_valid_token` returns `False`, writes no
token file, and leaves every token field as it was after the load. -/
theorem refresh_non200_state_unchanged (st : TokenState)
    (file : Option TokenFile) (now e : Int) (s : Nat) (atk : Option String)
    (ein : Option Int) (hs : s ≠ 200)
    (h1 : (loadPhase st file).tokenExpiresAt = some e) (h2 : e ≤ now)
    (h3 : truthy (loadPhase st file).refreshToken = true) :
    (ensure_valid_token st file now (.response s atk ein)).returnValue = false
  ∧ (ensure_valid_token st file now (.response s atk ein)).savedFiles = []
  ∧ (ensure_valid_token st file now (.response s atk ein)).state =
      loadPhase st file := by
  simp only [ensure_valid_token, h1]
  rw [if_pos h2, if_pos h3, refresh_access_token_non200 _ _ _ _ _ hs h3]
  exact ⟨rfl, rfl, rfl⟩

/-- Witness for C4: an expired token whose refresh is answered with
HTTP 400. -/
theorem refresh_non200_state_unchanged_witness :
    (ensure_valid_token ⟨some "tok", some "ref", some 100⟩ none 200
        (.response 400 none none)).returnValue = false
  ∧ (ensure_valid_token ⟨some "tok", some "ref", some 100⟩ none 200
        (.response 400 none none)).savedFiles = []
  ∧ (ensure_valid_token ⟨some "tok", some "ref", some 100⟩ none 200
        (.response 400 none none)).state =
      loadPhase ⟨some "tok", some "ref", some 100⟩ none :=
  refresh_non200_state_unchanged ⟨some "tok", some "ref", some 100⟩ none
    200 100 400 none none (by decide) rfl (by decide) rfl

/-- C9: an access token with no expiry timestamp is accepted forever —
`ensure_valid_token` returns `True` with no HTTP request, whatever the
current time. -/
theorem no_expiry_token_accepted (st : TokenState) (file : Option TokenFile)
    (now : Int) (resp : HttpResult)
    (h1 : truthy (loadPhase st file).accessToken = true)
    (h2 : (loadPhase st file).tokenExpiresAt = none) :
    (ensure_valid_token st file now resp).returnValue = true ∧
    (ensure_valid_token st file now resp).httpCalls = 0 := by
  unfold ensure_valid_token
  rw [h2]
  exact ⟨h1, rfl⟩

/-- Witness for C9: an in-memory access token with `expires_at = None`. -/
theorem no_expiry_token_accepted_witness :
    (ensure_valid_token ⟨some "tok", none, none⟩ none 0 .exn).returnValue =
      true ∧
    (ensure_valid_token ⟨some "tok", none, none⟩ none 0 .exn).httpCalls = 0 :=
  no_expiry_token_accepted ⟨some "tok", none, none⟩ none 0 .exn rfl rfl

end EbayListing
